import Mathlib

/-!
# Green AP controller of the HDD layer (core/hdd/src/wlan_hdd_green_ap.c)

A shallow embedding of the three functions of the file that take decisions:

* `hdd_green_ap_check_enable`      (lines 42-69), the concurrency evaluator;
* `hdd_green_ap_start_state_mc`    (lines 95-191), the session start/stop policy;
* `__wlan_hdd_enter_sap_low_pwr_mode` and its wrapper
  `wlan_hdd_enter_sap_low_pwr_mode` (lines 210-277), the doze vendor command.

Everything the file calls but does not define (policy manager, green AP
component, MLME, netlink parsing, vdev sync) is an input of the model: the
answer each call gives is a field of a record, and every call made is appended
to a trace, in program order.
-/

namespace GreenAp

/-! ## Constants that come from headers outside the file -/

/-- Linux errno EINVAL (asm-generic/errno-base.h). -/
def EINVAL : Int := 22

/-- Enumerators used by the file whose numeric values live in headers that are
not part of the sources at hand (enum QDF_OPMODE in qdf_types.h, enum
qca_wlan_dozed_ap_state in the vendor header). Every definition below takes
them as a parameter. -/
structure Consts where
  QDF_STA_MODE : Nat
  QDF_SAP_MODE : Nat
  QDF_P2P_CLIENT_MODE : Nat
  QDF_P2P_GO_MODE : Nat
  QDF_MAX_NO_OF_MODE : Nat
  QCA_WLAN_DOZED_AP_ENABLE : Nat

/-- The four case labels of the switch in `hdd_green_ap_start_state_mc` are
labels of one switch statement, so the station-like ones differ from the
AP-like ones. -/
abbrev Consts.DistinctLabels (K : Consts) : Prop :=
  K.QDF_SAP_MODE ≠ K.QDF_STA_MODE ∧ K.QDF_SAP_MODE ≠ K.QDF_P2P_CLIENT_MODE ∧
  K.QDF_P2P_GO_MODE ≠ K.QDF_STA_MODE ∧ K.QDF_P2P_GO_MODE ≠ K.QDF_P2P_CLIENT_MODE

/-- The values the enumerators have in the driver tree: STA 0, SAP 1,
P2P client 2, P2P GO 3, seventeen modes in all, DOZED_AP_ENABLE 1. -/
def qcacld : Consts :=
  { QDF_STA_MODE := 0
    QDF_SAP_MODE := 1
    QDF_P2P_CLIENT_MODE := 2
    QDF_P2P_GO_MODE := 3
    QDF_MAX_NO_OF_MODE := 17
    QCA_WLAN_DOZED_AP_ENABLE := 1 }

/-! ## Calls into the collaborators -/

/-- One call made by the file into a collaborator, with the arguments that
matter to the policy. -/
inductive Call where
  | ucfg_mlme_get_vht_enable2x2
  | ucfg_green_ap_get_ps_config
  | policy_mgr_mode_specific_num_active_sessions (mode : Nat)
  | ucfg_green_ap_set_ps_config (value : Bool)
  | wlan_green_ap_start
  | wlan_green_ap_stop
  | osif_vdev_sync_op_start
  | osif_vdev_sync_op_stop
  | wlan_cfg80211_nla_parse
  | ucfg_green_ap_ll_ps (state : Nat) (beacon_int : Nat)
  deriving DecidableEq, Repr

/-- The calls that change the Green AP state of the power-save engine. -/
def Call.isCommand : Call → Bool
  | .ucfg_green_ap_set_ps_config _ => true
  | .wlan_green_ap_start => true
  | .wlan_green_ap_stop => true
  | _ => false

/-- The calls that read the session-count registry. -/
def Call.isLookup : Call → Bool
  | .policy_mgr_mode_specific_num_active_sessions _ => true
  | _ => false

/-- The enable/disable commands of a trace, in order. -/
def commands (trace : List Call) : List Call := trace.filter Call.isCommand

/-- The registry reads of a trace, in order. -/
def lookups (trace : List Call) : List Call := trace.filter Call.isLookup

/-- EnableGreenAp: ucfg_green_ap_set_ps_config(true) then wlan_green_ap_start. -/
def EnableGreenAp : List Call :=
  [.ucfg_green_ap_set_ps_config true, .wlan_green_ap_start]

/-- DisableGreenAp: ucfg_green_ap_set_ps_config(false) then wlan_green_ap_stop. -/
def DisableGreenAp : List Call :=
  [.ucfg_green_ap_set_ps_config false, .wlan_green_ap_stop]

/-- Modelled from the spec: the session-count registry
(policy_mgr_mode_specific_num_active_sessions, defined outside the file) is
`count_active_sessions(mode) -> non_negative_integer | Error`. `some n`: the
status is QDF_STATUS_SUCCESS and n is what was stored through the uint8_t
out-parameter; `none`: any other status, nothing stored. -/
abbrev Registry := Nat → Option Nat

/-! ## hdd_green_ap_check_enable -/

/-- What `hdd_green_ap_check_enable` leaves behind: its return value, the
content of `*enable_green_ap`, and the registry reads it made. -/
structure CheckResult where
  ret : Int
  enable_green_ap : Bool
  trace : List Call

/-- The for loop of `hdd_green_ap_check_enable` (lines 48-66) entered with the
counter at `mode`. The counter is a uint8_t, hence `% 256` on `mode++`. One
unit of fuel is used per evaluation of the loop condition; `none` is the loop
still running when the fuel is gone. -/
def hdd_green_ap_check_enable_loop (K : Consts) (psoc : Registry) (enable_green_ap : Bool) :
    Nat → Nat → List Call → Option CheckResult
  | 0, _, _ => none
  | fuel + 1, mode, trace =>
    if mode < K.QDF_MAX_NO_OF_MODE then
      if mode = K.QDF_SAP_MODE ∨ mode = K.QDF_P2P_GO_MODE then
        hdd_green_ap_check_enable_loop K psoc enable_green_ap fuel ((mode + 1) % 256) trace
      else
        match psoc mode with
        | none =>
          some ⟨-EINVAL, enable_green_ap,
            trace ++ [.policy_mgr_mode_specific_num_active_sessions mode]⟩
        | some num_sessions =>
          if num_sessions ≠ 0 then
            some ⟨0, false, trace ++ [.policy_mgr_mode_specific_num_active_sessions mode]⟩
          else
            hdd_green_ap_check_enable_loop K psoc enable_green_ap fuel ((mode + 1) % 256)
              (trace ++ [.policy_mgr_mode_specific_num_active_sessions mode])
    else
      some ⟨0, true, trace⟩

/-- Lines 42-69. `enable_green_ap` is the content of the out-parameter on
entry. The loop state is the uint8_t counter alone and the registry is one
snapshot, so a loop that has evaluated its condition 256 times without leaving
has been at every counter value and never leaves: 256 units of fuel are
exact, and `none` is the C function not returning. The trace of the result
holds the reads made by this call only. -/
def hdd_green_ap_check_enable (K : Consts) (psoc : Registry) (enable_green_ap : Bool) :
    Option CheckResult :=
  hdd_green_ap_check_enable_loop K psoc enable_green_ap 256 0 []

/-! ## hdd_green_ap_start_state_mc -/

/-- The green AP component behind `hdd_ctx->pdev`, as far as the file sees it:
the status and value `ucfg_green_ap_get_ps_config` gives, and the status each
command gives. -/
structure Engine where
  get_ps_config_ok : Bool
  ps_enable : Nat
  set_ps_config_ok : Bool
  green_ap_start_ok : Bool
  green_ap_stop_ok : Bool
  ll_ps_ok : Nat → Nat → Bool

/-- Modelled from the spec: `ucfg_green_ap_set_ps_config` (defined outside the
file) stores the flag that `ucfg_green_ap_get_ps_config` reads back; a call
that reports an error stores nothing. -/
def ucfg_green_ap_set_ps_config (pdev : Engine) (value : Bool) : Engine :=
  if pdev.set_ps_config_ok then { pdev with ps_enable := if value then 1 else 0 } else pdev

/-- The part of struct hdd_context the file touches: whether `config` is
non-NULL, what `ucfg_mlme_get_vht_enable2x2` answers on `psoc` (`none`: error
status), the session registry behind `psoc`, the engine behind `pdev`. -/
structure hdd_context where
  config : Bool
  vht_enable2x2 : Option Bool
  psoc : Registry
  pdev : Engine

/-- What a call of one of the entry points leaves behind: the int returned,
the calls made, the engine afterwards. -/
structure Outcome where
  ret : Int
  trace : List Call
  pdev : Engine

/-- Lines 95-191. `ret` is declared uint8_t (line 100): the int returned by
`hdd_green_ap_check_enable` is reduced modulo 256 when stored in it, and
`return ret` widens it back to int. `none` only when the evaluator does not
return. -/
def hdd_green_ap_start_state_mc (K : Consts) (hdd_ctx : hdd_context) (mode : Nat)
    (is_session_start : Bool) : Option Outcome :=
  if !hdd_ctx.config then
    some ⟨-EINVAL, [], hdd_ctx.pdev⟩
  else
    match hdd_ctx.vht_enable2x2 with
    | none => some ⟨-EINVAL, [.ucfg_mlme_get_vht_enable2x2], hdd_ctx.pdev⟩
    | some _ =>
      let t0 : List Call := [.ucfg_mlme_get_vht_enable2x2, .ucfg_green_ap_get_ps_config]
      if !hdd_ctx.pdev.get_ps_config_ok then
        some ⟨0, t0, hdd_ctx.pdev⟩
      else if hdd_ctx.pdev.ps_enable = 0 then
        some ⟨0, t0, hdd_ctx.pdev⟩
      else
        let num_sap_sessions : Nat := (hdd_ctx.psoc K.QDF_SAP_MODE).getD 0
        let num_p2p_go_sessions : Nat := (hdd_ctx.psoc K.QDF_P2P_GO_MODE).getD 0
        let t1 : List Call := t0 ++
          [.policy_mgr_mode_specific_num_active_sessions K.QDF_SAP_MODE,
           .policy_mgr_mode_specific_num_active_sessions K.QDF_P2P_GO_MODE]
        if mode = K.QDF_STA_MODE ∨ mode = K.QDF_P2P_CLIENT_MODE then
          if num_sap_sessions = 0 ∧ num_p2p_go_sessions = 0 then
            some ⟨0, t1, hdd_ctx.pdev⟩
          else if is_session_start then
            some ⟨0, t1 ++ [.ucfg_green_ap_set_ps_config false, .wlan_green_ap_stop],
              ucfg_green_ap_set_ps_config hdd_ctx.pdev false⟩
          else
            match hdd_green_ap_check_enable K hdd_ctx.psoc false with
            | none => none
            | some c =>
              let ret : Nat := (c.ret % 256).toNat
              if ret = 0 then
                if c.enable_green_ap then
                  some ⟨ret, t1 ++ c.trace ++
                      [.ucfg_green_ap_set_ps_config true, .wlan_green_ap_start],
                    ucfg_green_ap_set_ps_config hdd_ctx.pdev true⟩
                else
                  some ⟨ret, t1 ++ c.trace, hdd_ctx.pdev⟩
              else
                some ⟨ret, t1 ++ c.trace, hdd_ctx.pdev⟩
        else if mode = K.QDF_SAP_MODE ∨ mode = K.QDF_P2P_GO_MODE then
          if is_session_start then
            match hdd_green_ap_check_enable K hdd_ctx.psoc false with
            | none => none
            | some c =>
              let ret : Nat := (c.ret % 256).toNat
              if ret = 0 then
                if c.enable_green_ap then
                  some ⟨ret, t1 ++ c.trace ++
                      [.ucfg_green_ap_set_ps_config true, .wlan_green_ap_start],
                    ucfg_green_ap_set_ps_config hdd_ctx.pdev true⟩
                else
                  some ⟨ret, t1 ++ c.trace, hdd_ctx.pdev⟩
              else
                some ⟨ret, t1 ++ c.trace, hdd_ctx.pdev⟩
          else
            if num_sap_sessions = 0 ∧ num_p2p_go_sessions = 0 then
              some ⟨0, t1 ++ [.ucfg_green_ap_set_ps_config false, .wlan_green_ap_stop],
                ucfg_green_ap_set_ps_config hdd_ctx.pdev false⟩
            else
              some ⟨0, t1, hdd_ctx.pdev⟩
        else
          some ⟨0, t1, hdd_ctx.pdev⟩

/-! ## The doze vendor command -/

/-- The vendor command as the file sees it: whether `wlan_cfg80211_nla_parse`
accepts `data`, and the u8 that `nla_get_u8` reads from
`tb[QCA_WLAN_VENDOR_ATTR_DOZED_AP_STATE]` (`none`: attribute absent). -/
structure DozeRequest where
  nla_parse_ok : Bool
  dozed_ap_state : Option Nat

/-- The part of the wireless device the file touches: the errno of
`osif_vdev_sync_op_start(wdev->netdev, ..)` and the adapter field
`session.ap.sap_config.beacon_int`. -/
structure wireless_dev where
  sync_op_start : Int
  beacon_int : Nat

/-- Lines 210-257. The trace holds the calls made by this function only. -/
def __wlan_hdd_enter_sap_low_pwr_mode (K : Consts) (hdd_ctx : hdd_context)
    (wdev : wireless_dev) (data : DozeRequest) : Outcome :=
  let t0 : List Call := [.wlan_cfg80211_nla_parse]
  if !data.nla_parse_ok then
    ⟨-EINVAL, t0, hdd_ctx.pdev⟩
  else
    match data.dozed_ap_state with
    | none => ⟨-EINVAL, t0, hdd_ctx.pdev⟩
    | some lp_flags =>
      if lp_flags > K.QCA_WLAN_DOZED_AP_ENABLE then
        ⟨-EINVAL, t0, hdd_ctx.pdev⟩
      else
        let t1 := t0 ++ [.ucfg_green_ap_ll_ps lp_flags wdev.beacon_int]
        if !hdd_ctx.pdev.ll_ps_ok lp_flags wdev.beacon_int then
          ⟨-EINVAL, t1, hdd_ctx.pdev⟩
        else
          ⟨0, t1, hdd_ctx.pdev⟩

/-- Lines 259-277. The errno of the inner handler is assigned (line 271) and
the function then returns the literal 0 (line 276). -/
def wlan_hdd_enter_sap_low_pwr_mode (K : Consts) (hdd_ctx : hdd_context)
    (wdev : wireless_dev) (data : DozeRequest) : Outcome :=
  let errno := wdev.sync_op_start
  if errno ≠ 0 then
    ⟨errno, [.osif_vdev_sync_op_start], hdd_ctx.pdev⟩
  else
    let inner := __wlan_hdd_enter_sap_low_pwr_mode K hdd_ctx wdev data
    ⟨0, [.osif_vdev_sync_op_start] ++ inner.trace ++ [.osif_vdev_sync_op_stop], inner.pdev⟩

/-- The function got past its two sanity checks, on `hdd_ctx->config` and on
the status of `ucfg_mlme_get_vht_enable2x2` (lines 105-115). -/
abbrev hdd_context.sane (hdd_ctx : hdd_context) : Prop :=
  hdd_ctx.config = true ∧ hdd_ctx.vht_enable2x2.isSome = true

/-- Feature on: `ucfg_green_ap_get_ps_config` succeeds and gives a non-zero
flag (lines 121-128). -/
abbrev Engine.featureOn (pdev : Engine) : Prop :=
  pdev.get_ps_config_ok = true ∧ pdev.ps_enable ≠ 0

/-- The value of `num_sap_sessions` after line 132: the count read, or the
initialiser 0 when the read stored nothing. -/
def sap_count (K : Consts) (psoc : Registry) : Nat := (psoc K.QDF_SAP_MODE).getD 0

/-- The value of `num_p2p_go_sessions` after line 135. -/
def go_count (K : Consts) (psoc : Registry) : Nat := (psoc K.QDF_P2P_GO_MODE).getD 0

/-! ## Concrete inputs used in the examples -/

/-- A registry in which every mode reports zero sessions. -/
def idleRegistry : Registry := fun _ => some 0

/-- A registry in which `mode` reports `n` sessions and every other mode zero. -/
def oneMode (mode n : Nat) : Registry := fun m => if m = mode then some n else some 0

/-- An engine with the Green AP feature on that accepts every command. -/
def engineOn : Engine :=
  { get_ps_config_ok := true
    ps_enable := 1
    set_ps_config_ok := true
    green_ap_start_ok := true
    green_ap_stop_ok := true
    ll_ps_ok := fun _ _ => true }

/-- A driver context that passes the sanity checks, feature on. -/
def ctxOn (psoc : Registry) : hdd_context :=
  { config := true, vht_enable2x2 := some true, psoc := psoc, pdev := engineOn }

/-- An engine with the feature on that reports an error for every command
(set_ps_config, start, stop, ll_ps). -/
def engineFailing : Engine :=
  { get_ps_config_ok := true
    ps_enable := 1
    set_ps_config_ok := false
    green_ap_start_ok := false
    green_ap_stop_ok := false
    ll_ps_ok := fun _ _ => false }

/-- A registry that cannot report the count of `mode` and reports zero for
every other mode. -/
def unreadable (mode : Nat) : Registry := fun m => if m = mode then none else some 0

/-- A registry that cannot report the SAP (1) and P2P GO (3) counts of the
driver's enumeration, and reports zero for every other mode. -/
def apUnreadable : Registry := fun m => if m = 1 ∨ m = 3 then none else some 0

/-- A registry of the driver's enumeration in which station mode (0) has two
sessions, the P2P client count (2) cannot be read, every other mode has none. -/
def busyThenUnreadable : Registry :=
  fun m => if m = 0 then some 2 else if m = 2 then none else some 0

/-! ## Successive session events -/

/-- One later call of `hdd_green_ap_start_state_mc`: its arguments and what the
collaborators other than the engine answer during it. -/
structure SessionEvent where
  mode : Nat
  is_session_start : Bool
  config : Bool
  vht_enable2x2 : Option Bool
  psoc : Registry

/-- Successive calls of `hdd_green_ap_start_state_mc`, each running on the
engine left by the call before it; the result pairs every event with the
outcome of its call. Nothing but these calls touches the engine. -/
def run_events (K : Consts) : Engine → List SessionEvent → Option (List (SessionEvent × Outcome))
  | _, [] => some []
  | pdev, e :: es =>
    match hdd_green_ap_start_state_mc K ⟨e.config, e.vht_enable2x2, e.psoc, pdev⟩ e.mode
        e.is_session_start with
    | none => none
    | some r =>
      match run_events K r.pdev es with
      | none => none
      | some rs => some ((e, r) :: rs)

/-! ## Facts about the evaluator loop -/

/-- The loop returns 0 or -EINVAL, nothing else. -/
theorem check_enable_loop_ret (K : Consts) (psoc : Registry) (e : Bool) :
    ∀ (fuel mode : Nat) (trace : List Call) (r : CheckResult),
      hdd_green_ap_check_enable_loop K psoc e fuel mode trace = some r →
      r.ret = 0 ∨ r.ret = -EINVAL := by
  intro fuel
  induction fuel with
  | zero => intro mode trace r h; simp [hdd_green_ap_check_enable_loop] at h
  | succ fuel ih =>
    intro mode trace r h
    unfold hdd_green_ap_check_enable_loop at h
    split at h
    · split at h
      · exact ih _ _ _ h
      · split at h
        · simp only [Option.some.injEq] at h
          subst h
          exact Or.inr rfl
        · split at h
          · simp only [Option.some.injEq] at h
            subst h
            exact Or.inl rfl
          · exact ih _ _ _ h
    · simp only [Option.some.injEq] at h
      subst h
      exact Or.inl rfl

/-- The loop only appends registry reads to the trace. -/
theorem check_enable_loop_trace (K : Consts) (psoc : Registry) (e : Bool) :
    ∀ (fuel mode : Nat) (trace : List Call) (r : CheckResult),
      hdd_green_ap_check_enable_loop K psoc e fuel mode trace = some r →
      ∃ l, r.trace = trace ++ l ∧ ∀ c ∈ l, c.isLookup = true := by
  intro fuel
  induction fuel with
  | zero => intro mode trace r h; simp [hdd_green_ap_check_enable_loop] at h
  | succ fuel ih =>
    intro mode trace r h
    unfold hdd_green_ap_check_enable_loop at h
    split at h
    · split at h
      · exact ih _ _ _ h
      · split at h
        · simp only [Option.some.injEq] at h
          subst h
          exact ⟨_, rfl, by simp [Call.isLookup]⟩
        · split at h
          · simp only [Option.some.injEq] at h
            subst h
            exact ⟨_, rfl, by simp [Call.isLookup]⟩
          · obtain ⟨l, hl, hc⟩ := ih _ _ _ h
            refine ⟨_ :: l, by simpa using hl, ?_⟩
            intro c hcm
            rcases List.mem_cons.1 hcm with rfl | hcm
            · rfl
            · exact hc c hcm
    · simp only [Option.some.injEq] at h
      subst h
      exact ⟨[], by simp, by simp⟩

/-- A loop that returns 0 with the verdict true has read a zero count for every
non-AP-like mode from its starting counter up to QDF_MAX_NO_OF_MODE. -/
theorem check_enable_loop_sound (K : Consts) (psoc : Registry) (e : Bool) :
    ∀ (fuel mode : Nat) (trace : List Call) (r : CheckResult),
      mode + fuel ≤ 256 →
      hdd_green_ap_check_enable_loop K psoc e fuel mode trace = some r →
      r.ret = 0 → r.enable_green_ap = true →
      ∀ m, mode ≤ m → m < K.QDF_MAX_NO_OF_MODE → m ≠ K.QDF_SAP_MODE →
        m ≠ K.QDF_P2P_GO_MODE → psoc m = some 0 := by
  intro fuel
  induction fuel with
  | zero => intro mode trace r _ h; simp [hdd_green_ap_check_enable_loop] at h
  | succ fuel ih =>
    intro mode trace r hb h hret hen m hm hlt hsap hgo
    have hnext : (mode + 1) % 256 + fuel ≤ 256 := by
      have := Nat.mod_le (mode + 1) 256
      omega
    have hle : (mode + 1) % 256 ≤ mode + 1 := Nat.mod_le _ _
    unfold hdd_green_ap_check_enable_loop at h
    split at h
    · split at h
      · rename_i hap
        have hne : m ≠ mode := by
          rintro rfl
          rcases hap with hap | hap
          · exact hsap hap
          · exact hgo hap
        exact ih _ _ _ hnext h hret hen m (by omega) hlt hsap hgo
      · split at h
        · simp only [Option.some.injEq] at h
          subst h
          simp [EINVAL] at hret
        · rename_i n hn
          split at h
          · simp only [Option.some.injEq] at h
            subst h
            simp at hen
          · rename_i hz
            have hn0 : n = 0 := by simpa using hz
            by_cases hmm : m = mode
            · subst hmm
              rw [hn, hn0]
            · exact ih _ _ _ hnext h hret hen m (by omega) hlt hsap hgo
    · omega

/-- With at most 255 modes and every read succeeding, the loop returns 0, and
its verdict is true exactly when every non-AP-like mode it has still to visit
has a zero count. -/
theorem check_enable_loop_total (K : Consts) (psoc : Registry) (e : Bool)
    (hmax : K.QDF_MAX_NO_OF_MODE ≤ 255) :
    ∀ (fuel mode : Nat) (trace : List Call),
      mode ≤ K.QDF_MAX_NO_OF_MODE → K.QDF_MAX_NO_OF_MODE - mode < fuel →
      (∀ m, mode ≤ m → m < K.QDF_MAX_NO_OF_MODE → m ≠ K.QDF_SAP_MODE →
        m ≠ K.QDF_P2P_GO_MODE → (psoc m).isSome = true) →
      ∃ r, hdd_green_ap_check_enable_loop K psoc e fuel mode trace = some r ∧ r.ret = 0 ∧
        (r.enable_green_ap = true ↔
          ∀ m, mode ≤ m → m < K.QDF_MAX_NO_OF_MODE → m ≠ K.QDF_SAP_MODE →
            m ≠ K.QDF_P2P_GO_MODE → psoc m = some 0) := by
  intro fuel
  induction fuel with
  | zero => intro mode trace _ hf; omega
  | succ fuel ih =>
    intro mode trace hle hf hok
    unfold hdd_green_ap_check_enable_loop
    by_cases hlt : mode < K.QDF_MAX_NO_OF_MODE
    · have hwrap : (mode + 1) % 256 = mode + 1 := Nat.mod_eq_of_lt (by omega)
      rw [if_pos hlt, hwrap]
      by_cases hap : mode = K.QDF_SAP_MODE ∨ mode = K.QDF_P2P_GO_MODE
      · rw [if_pos hap]
        obtain ⟨r, hr, hret, hiff⟩ := ih (mode + 1) trace (by omega) (by omega)
          (fun m hm => hok m (by omega))
        refine ⟨r, hr, hret, hiff.trans ⟨?_, fun h m hm => h m (by omega)⟩⟩
        intro h m hm hlt2 hsap hgo
        have hne : m ≠ mode := by
          rintro rfl
          rcases hap with hap | hap
          · exact hsap hap
          · exact hgo hap
        exact h m (by omega) hlt2 hsap hgo
      · rw [if_neg hap]
        have hsap : mode ≠ K.QDF_SAP_MODE := fun h => hap (Or.inl h)
        have hgo : mode ≠ K.QDF_P2P_GO_MODE := fun h => hap (Or.inr h)
        have hsome := hok mode (Nat.le_refl _) hlt hsap hgo
        obtain ⟨n, hn⟩ := Option.isSome_iff_exists.1 hsome
        rw [hn]
        by_cases hz : n = 0
        · subst hz
          simp only [ne_eq, not_true_eq_false, if_false]
          obtain ⟨r, hr, hret, hiff⟩ := ih (mode + 1)
            (trace ++ [.policy_mgr_mode_specific_num_active_sessions mode]) (by omega) (by omega)
            (fun m hm => hok m (by omega))
          refine ⟨r, hr, hret, hiff.trans ⟨?_, fun h m hm => h m (by omega)⟩⟩
          intro h m hm hlt2 hsap2 hgo2
          by_cases hmm : m = mode
          · subst hmm; exact hn
          · exact h m (by omega) hlt2 hsap2 hgo2
        · simp only [ne_eq, hz, not_false_eq_true, if_true]
          refine ⟨_, rfl, rfl, ?_⟩
          constructor
          · intro h; simp at h
          · intro h
            have := h mode (Nat.le_refl _) hlt hsap hgo
            rw [hn] at this
            exact absurd (Option.some.inj this) hz
    · rw [if_neg hlt]
      exact ⟨_, rfl, rfl, ⟨fun _ m hm hlt2 => by omega, fun _ => rfl⟩⟩

/-- The evaluator returns 0 or -EINVAL. -/
theorem check_enable_ret (K : Consts) (psoc : Registry) (e : Bool) (c : CheckResult)
    (h : hdd_green_ap_check_enable K psoc e = some c) : c.ret = 0 ∨ c.ret = -EINVAL :=
  check_enable_loop_ret K psoc e 256 0 [] c h

/-- Stored in the uint8_t `ret`, the evaluator's return value is 0 exactly when
it was 0: -EINVAL becomes 234. -/
theorem check_enable_ret_u8 (K : Consts) (psoc : Registry) (e : Bool) (c : CheckResult)
    (h : hdd_green_ap_check_enable K psoc e = some c) :
    ((c.ret % 256).toNat = 0 ↔ c.ret = 0) ∧ ((c.ret % 256).toNat = 0 ∨ (c.ret % 256).toNat = 234) := by
  rcases check_enable_ret K psoc e c h with h0 | h1
  · rw [h0]; decide
  · rw [h1]; decide

/-- The evaluator makes registry reads and no other call. -/
theorem check_enable_trace (K : Consts) (psoc : Registry) (e : Bool) (c : CheckResult)
    (h : hdd_green_ap_check_enable K psoc e = some c) : ∀ x ∈ c.trace, x.isLookup = true := by
  obtain ⟨l, hl, hc⟩ := check_enable_loop_trace K psoc e 256 0 [] c h
  rw [hl]
  simpa using hc

/-- The evaluator issues no command. -/
theorem check_enable_commands (K : Consts) (psoc : Registry) (e : Bool) (c : CheckResult)
    (h : hdd_green_ap_check_enable K psoc e = some c) : commands c.trace = [] := by
  have ht := check_enable_trace K psoc e c h
  unfold commands
  rw [List.filter_eq_nil_iff]
  intro x hx
  have := ht x hx
  cases x <;> simp_all [Call.isLookup, Call.isCommand]

/-- A verdict of true returned with 0 means every non-AP-like mode reported a
zero count. -/
theorem check_enable_sound (K : Consts) (psoc : Registry) (e : Bool) (c : CheckResult)
    (h : hdd_green_ap_check_enable K psoc e = some c) (hret : c.ret = 0)
    (hen : c.enable_green_ap = true) :
    ∀ m, m < K.QDF_MAX_NO_OF_MODE → m ≠ K.QDF_SAP_MODE → m ≠ K.QDF_P2P_GO_MODE →
      psoc m = some 0 :=
  fun m hm hs hg =>
    check_enable_loop_sound K psoc e 256 0 [] c (by omega) h hret hen m (Nat.zero_le _) hm hs hg

/-- With at most 255 modes and every read of a non-AP-like mode succeeding, the
evaluator returns, and returns 0. -/
theorem check_enable_total (K : Consts) (psoc : Registry) (e : Bool)
    (hmax : K.QDF_MAX_NO_OF_MODE ≤ 255)
    (hok : ∀ m, m < K.QDF_MAX_NO_OF_MODE → m ≠ K.QDF_SAP_MODE → m ≠ K.QDF_P2P_GO_MODE →
      (psoc m).isSome = true) :
    ∃ c, hdd_green_ap_check_enable K psoc e = some c ∧ c.ret = 0 := by
  obtain ⟨r, hr, hret, -⟩ := check_enable_loop_total K psoc e hmax 256 0 []
    (Nat.zero_le _) (by omega) (fun m _ => hok m)
  exact ⟨r, hr, hret⟩

/-- The commands of a concatenation. -/
theorem commands_append (s t : List Call) : commands (s ++ t) = commands s ++ commands t := by
  simp [commands]

/-- The commands of the empty trace. -/
theorem commands_nil : commands [] = [] := rfl

/-- The commands of a trace, call by call. -/
theorem commands_cons (x : Call) (t : List Call) :
    commands (x :: t) = if x.isCommand = true then x :: commands t else commands t := by
  cases h : x.isCommand <;> simp [commands, h]

/-! ## Properties of the specification, checked against the code -/

/-- C1: for every registry in which the reads of the non-AP-like modes succeed
(and an enum of at most 255 modes, so that the uint8_t counter reaches
QDF_MAX_NO_OF_MODE), `hdd_green_ap_check_enable` returns 0, and sets
`*enable_green_ap` to true if and only if every mode in [0, QDF_MAX_NO_OF_MODE)
other than QDF_SAP_MODE and QDF_P2P_GO_MODE has a session count of 0; if some
such mode has a count above 0 it returns 0 with `*enable_green_ap` false. -/
theorem check_enable_eligible_iff (K : Consts) (psoc : Registry) (e : Bool)
    (hmax : K.QDF_MAX_NO_OF_MODE ≤ 255)
    (hok : ∀ m, m < K.QDF_MAX_NO_OF_MODE → m ≠ K.QDF_SAP_MODE → m ≠ K.QDF_P2P_GO_MODE →
      (psoc m).isSome = true) :
    ∃ r, hdd_green_ap_check_enable K psoc e = some r ∧ r.ret = 0 ∧
      (r.enable_green_ap = true ↔
        ∀ m, m < K.QDF_MAX_NO_OF_MODE → m ≠ K.QDF_SAP_MODE → m ≠ K.QDF_P2P_GO_MODE →
          psoc m = some 0) ∧
      ((∃ m n, m < K.QDF_MAX_NO_OF_MODE ∧ m ≠ K.QDF_SAP_MODE ∧ m ≠ K.QDF_P2P_GO_MODE ∧
          psoc m = some n ∧ 0 < n) → r.enable_green_ap = false) := by
  obtain ⟨r, hr, hret, hiff⟩ := check_enable_loop_total K psoc e hmax 256 0 []
    (Nat.zero_le _) (by omega) (fun m _ => hok m)
  refine ⟨r, hr, hret, ⟨fun h m => hiff.1 h m (Nat.zero_le _), fun h => hiff.2 (fun m _ => h m)⟩, ?_⟩
  rintro ⟨m, n, hm, hs, hg, hn, hpos⟩
  cases hb : r.enable_green_ap with
  | false => rfl
  | true =>
    have := hiff.1 hb m (Nat.zero_le _) hm hs hg
    rw [hn] at this
    have := Option.some.inj this
    omega

/-- C1 at the driver's enumerators, one station session (mode 0 has count 2). -/
theorem check_enable_eligible_iff_witness :
    ∃ r, hdd_green_ap_check_enable qcacld (oneMode 0 2) true = some r ∧ r.ret = 0 ∧
      (r.enable_green_ap = true ↔
        ∀ m, m < qcacld.QDF_MAX_NO_OF_MODE → m ≠ qcacld.QDF_SAP_MODE →
          m ≠ qcacld.QDF_P2P_GO_MODE → oneMode 0 2 m = some 0) ∧
      ((∃ m n, m < qcacld.QDF_MAX_NO_OF_MODE ∧ m ≠ qcacld.QDF_SAP_MODE ∧
          m ≠ qcacld.QDF_P2P_GO_MODE ∧ oneMode 0 2 m = some n ∧ 0 < n) →
        r.enable_green_ap = false) :=
  check_enable_eligible_iff qcacld (oneMode 0 2) true (by decide)
    (fun m _ _ _ => by unfold oneMode; split <;> rfl)

/-- C2: whatever the mode, the direction, the registry and the engine, a call
of `hdd_green_ap_start_state_mc` whose trace holds
ucfg_green_ap_set_ps_config(true) or wlan_green_ap_start was made with the
evaluator returning 0 and a verdict of true on that registry, and every
non-AP-like mode has a session count of zero. -/
theorem start_state_mc_enable_safe (K : Consts) (hdd_ctx : hdd_context) (mode : Nat)
    (is_session_start : Bool) (r : Outcome)
    (h : hdd_green_ap_start_state_mc K hdd_ctx mode is_session_start = some r)
    (hissued : Call.ucfg_green_ap_set_ps_config true ∈ r.trace ∨
      Call.wlan_green_ap_start ∈ r.trace) :
    ∃ c, hdd_green_ap_check_enable K hdd_ctx.psoc false = some c ∧ c.ret = 0 ∧
      c.enable_green_ap = true ∧
      ∀ m, m < K.QDF_MAX_NO_OF_MODE → m ≠ K.QDF_SAP_MODE → m ≠ K.QDF_P2P_GO_MODE →
        hdd_ctx.psoc m = some 0 := by
  -- what the block of lines 149-160 (and its copy, lines 166-177) gives
  have block : ∀ (t1 : List Call),
      (∀ x ∈ t1, x ≠ Call.ucfg_green_ap_set_ps_config true ∧ x ≠ Call.wlan_green_ap_start) →
      (match hdd_green_ap_check_enable K hdd_ctx.psoc false with
        | none => none
        | some c =>
          if (c.ret % 256).toNat = 0 then
            if c.enable_green_ap = true then
              some (Outcome.mk ((c.ret % 256).toNat : Int) (t1 ++ c.trace ++
                  [.ucfg_green_ap_set_ps_config true, .wlan_green_ap_start])
                (ucfg_green_ap_set_ps_config hdd_ctx.pdev true))
            else some ⟨((c.ret % 256).toNat : Int), t1 ++ c.trace, hdd_ctx.pdev⟩
          else some ⟨((c.ret % 256).toNat : Int), t1 ++ c.trace, hdd_ctx.pdev⟩) = some r →
      ∃ c, hdd_green_ap_check_enable K hdd_ctx.psoc false = some c ∧ c.ret = 0 ∧
        c.enable_green_ap = true ∧
        ∀ m, m < K.QDF_MAX_NO_OF_MODE → m ≠ K.QDF_SAP_MODE → m ≠ K.QDF_P2P_GO_MODE →
          hdd_ctx.psoc m = some 0 := by
    intro t1 ht1 hb
    cases hc : hdd_green_ap_check_enable K hdd_ctx.psoc false with
    | none => rw [hc] at hb; simp at hb
    | some c =>
      rw [hc] at hb
      have hu8 := (check_enable_ret_u8 K hdd_ctx.psoc false c hc).1
      have hlook := check_enable_trace K hdd_ctx.psoc false c hc
      have hquiet : ¬ (Call.ucfg_green_ap_set_ps_config true ∈ t1 ++ c.trace ∨
          Call.wlan_green_ap_start ∈ t1 ++ c.trace) := by
        rintro (hm | hm) <;> rcases List.mem_append.1 hm with hm | hm
        · exact (ht1 _ hm).1 rfl
        · simpa [Call.isLookup] using hlook _ hm
        · exact (ht1 _ hm).2 rfl
        · simpa [Call.isLookup] using hlook _ hm
      dsimp only at hb
      split at hb
      · rename_i hret
        split at hb
        · rename_i hen
          exact ⟨c, rfl, hu8.1 hret, hen, check_enable_sound K hdd_ctx.psoc false c hc (hu8.1 hret) hen⟩
        · simp only [Option.some.injEq] at hb
          subst hb
          exact absurd hissued hquiet
      · simp only [Option.some.injEq] at hb
        subst hb
        exact absurd hissued hquiet
  unfold hdd_green_ap_start_state_mc at h
  split at h
  · simp only [Option.some.injEq] at h; subst h; simp at hissued
  · split at h
    · simp only [Option.some.injEq] at h; subst h; simp at hissued
    · dsimp only at h
      split at h
      · simp only [Option.some.injEq] at h; subst h; simp at hissued
      · split at h
        · simp only [Option.some.injEq] at h; subst h; simp at hissued
        · split at h
          · split at h
            · simp only [Option.some.injEq] at h; subst h; simp at hissued
            · split at h
              · simp only [Option.some.injEq] at h; subst h; simp at hissued
              · exact block _ (by simp) h
          · split at h
            · split at h
              · exact block _ (by simp) h
              · split at h
                · simp only [Option.some.injEq] at h; subst h; simp at hissued
                · simp only [Option.some.injEq] at h; subst h; simp at hissued
            · simp only [Option.some.injEq] at h; subst h; simp at hissued

/-- C2 at a station STOP next to one SAP session, no station-role session left. -/
theorem start_state_mc_enable_safe_witness :
    ∃ c, hdd_green_ap_check_enable qcacld (ctxOn (oneMode 1 1)).psoc false = some c ∧ c.ret = 0 ∧
      c.enable_green_ap = true ∧
      ∀ m, m < qcacld.QDF_MAX_NO_OF_MODE → m ≠ qcacld.QDF_SAP_MODE →
        m ≠ qcacld.QDF_P2P_GO_MODE → (ctxOn (oneMode 1 1)).psoc m = some 0 :=
  start_state_mc_enable_safe qcacld (ctxOn (oneMode 1 1)) 0 false
    ⟨0,
     [Call.ucfg_mlme_get_vht_enable2x2, Call.ucfg_green_ap_get_ps_config,
      Call.policy_mgr_mode_specific_num_active_sessions 1,
      Call.policy_mgr_mode_specific_num_active_sessions 3] ++
     [0, 2, 4, 5, 6, 7, 8, 9, 10, 11, 12, 13, 14, 15, 16].map
       Call.policy_mgr_mode_specific_num_active_sessions ++ EnableGreenAp,
     ucfg_green_ap_set_ps_config engineOn true⟩
    rfl (Or.inl (by decide))

/-- C3, as stated, fails: with the feature on and a registry on which the
evaluator reports true (every count is zero, so sap_count = go_count = 0), a
station STOP issues no command at all. -/
theorem start_state_mc_sta_stop_counterexample :
    (hdd_green_ap_check_enable qcacld idleRegistry false).map
        (fun c => (c.ret, c.enable_green_ap)) = some (0, true) ∧
      sap_count qcacld idleRegistry = 0 ∧ go_count qcacld idleRegistry = 0 ∧
      (hdd_green_ap_start_state_mc qcacld (ctxOn idleRegistry) qcacld.QDF_STA_MODE false).map
        (fun r => (r.ret, commands r.trace)) = some (0, []) := by
  decide

/-- C3, amended: station-like STOP with the feature on, on a registry on which
the evaluator returns 0. If an AP-like session exists (sap_count or go_count
is not 0) the function issues EnableGreenAp when the verdict is true and no
command when it is false; if sap_count and go_count are both 0 it issues no
command whatever the verdict. It returns 0 in each case. -/
theorem start_state_mc_sta_stop (K : Consts) (hdd_ctx : hdd_context) (mode : Nat)
    (c : CheckResult)
    (hmode : mode = K.QDF_STA_MODE ∨ mode = K.QDF_P2P_CLIENT_MODE)
    (hsane : hdd_ctx.sane) (hon : hdd_ctx.pdev.featureOn)
    (hc : hdd_green_ap_check_enable K hdd_ctx.psoc false = some c) (hret : c.ret = 0) :
    ∃ r, hdd_green_ap_start_state_mc K hdd_ctx mode false = some r ∧ r.ret = 0 ∧
      commands r.trace =
        (if sap_count K hdd_ctx.psoc = 0 ∧ go_count K hdd_ctx.psoc = 0 then []
         else if c.enable_green_ap = true then EnableGreenAp else []) := by
  obtain ⟨hcfg, hvht⟩ := hsane
  obtain ⟨hps, hen⟩ := hon
  obtain ⟨b, hb⟩ := Option.isSome_iff_exists.1 hvht
  have hcmd := check_enable_commands K hdd_ctx.psoc false c hc
  unfold hdd_green_ap_start_state_mc
  by_cases hz : sap_count K hdd_ctx.psoc = 0 ∧ go_count K hdd_ctx.psoc = 0
  · have hz2 := hz
    unfold sap_count go_count at hz2
    simp [hcfg, hb, hps, hen, hmode, hz, hz2, commands, Call.isCommand]
  · have hz2 := hz
    unfold sap_count go_count at hz2
    cases hv : c.enable_green_ap <;>
      simp [hcfg, hb, hps, hen, hmode, hz, hz2, hc, hret, hv, commands_append, hcmd,
        EnableGreenAp, commands_cons, commands_nil, Call.isCommand]

/-- C3 amended, at scenario C with an AP present: station STOP next to one SAP
session, every station-role count at zero. -/
theorem start_state_mc_sta_stop_witness :
    ∃ r, hdd_green_ap_start_state_mc qcacld (ctxOn (oneMode 1 1)) 0 false = some r ∧ r.ret = 0 ∧
      commands r.trace =
        (if sap_count qcacld (ctxOn (oneMode 1 1)).psoc = 0 ∧
            go_count qcacld (ctxOn (oneMode 1 1)).psoc = 0 then []
         else if (CheckResult.mk 0 true
            ([0, 2, 4, 5, 6, 7, 8, 9, 10, 11, 12, 13, 14, 15, 16].map
              Call.policy_mgr_mode_specific_num_active_sessions)).enable_green_ap = true
           then EnableGreenAp else []) :=
  start_state_mc_sta_stop qcacld (ctxOn (oneMode 1 1)) 0
    ⟨0, true, [0, 2, 4, 5, 6, 7, 8, 9, 10, 11, 12, 13, 14, 15, 16].map
      Call.policy_mgr_mode_specific_num_active_sessions⟩
    (Or.inl rfl) ⟨rfl, rfl⟩ ⟨rfl, by decide⟩ rfl rfl

/-- C4: station-like START with the feature on. With no SAP and no P2P GO
session the function issues no command; otherwise it issues exactly
DisableGreenAp; it returns 0 either way, makes the two registry reads of lines
130-135 and no other, and the counts of the other modes play no part. -/
theorem start_state_mc_sta_start (K : Consts) (hdd_ctx : hdd_context) (mode : Nat)
    (hmode : mode = K.QDF_STA_MODE ∨ mode = K.QDF_P2P_CLIENT_MODE)
    (hsane : hdd_ctx.sane) (hon : hdd_ctx.pdev.featureOn) :
    ∃ r, hdd_green_ap_start_state_mc K hdd_ctx mode true = some r ∧ r.ret = 0 ∧
      commands r.trace =
        (if sap_count K hdd_ctx.psoc = 0 ∧ go_count K hdd_ctx.psoc = 0 then []
         else DisableGreenAp) ∧
      lookups r.trace = [.policy_mgr_mode_specific_num_active_sessions K.QDF_SAP_MODE,
        .policy_mgr_mode_specific_num_active_sessions K.QDF_P2P_GO_MODE] := by
  obtain ⟨hcfg, hvht⟩ := hsane
  obtain ⟨hps, hen⟩ := hon
  obtain ⟨b, hb⟩ := Option.isSome_iff_exists.1 hvht
  unfold hdd_green_ap_start_state_mc
  by_cases hz : sap_count K hdd_ctx.psoc = 0 ∧ go_count K hdd_ctx.psoc = 0
  · have hz2 := hz
    unfold sap_count go_count at hz2
    simp [hcfg, hb, hps, hen, hmode, hz, hz2, commands, lookups, Call.isCommand, Call.isLookup]
  · have hz2 := hz
    unfold sap_count go_count at hz2
    simp [hcfg, hb, hps, hen, hmode, hz, hz2, commands, lookups, Call.isCommand, Call.isLookup,
      DisableGreenAp]

/-- C4 at scenario B of the specification: station START with one SAP session. -/
theorem start_state_mc_sta_start_witness :
    ∃ r, hdd_green_ap_start_state_mc qcacld (ctxOn (oneMode 1 1)) 0 true = some r ∧ r.ret = 0 ∧
      commands r.trace =
        (if sap_count qcacld (ctxOn (oneMode 1 1)).psoc = 0 ∧
            go_count qcacld (ctxOn (oneMode 1 1)).psoc = 0 then []
         else DisableGreenAp) ∧
      lookups r.trace = [.policy_mgr_mode_specific_num_active_sessions qcacld.QDF_SAP_MODE,
        .policy_mgr_mode_specific_num_active_sessions qcacld.QDF_P2P_GO_MODE] :=
  start_state_mc_sta_start qcacld (ctxOn (oneMode 1 1)) 0 (Or.inl rfl)
    ⟨rfl, rfl⟩ ⟨rfl, by decide⟩

/-- C5: AP-like START with the feature on, on a registry whose reads of the
non-AP-like modes succeed (enum of at most 255 modes). The evaluator returns
0; the function issues EnableGreenAp when the verdict is true and no command
when it is false, returns 0 in both cases, and makes neither call of
DisableGreenAp. -/
theorem start_state_mc_ap_start (K : Consts) (hdd_ctx : hdd_context) (mode : Nat)
    (hlabels : K.DistinctLabels)
    (hmode : mode = K.QDF_SAP_MODE ∨ mode = K.QDF_P2P_GO_MODE)
    (hsane : hdd_ctx.sane) (hon : hdd_ctx.pdev.featureOn)
    (hmax : K.QDF_MAX_NO_OF_MODE ≤ 255)
    (hok : ∀ m, m < K.QDF_MAX_NO_OF_MODE → m ≠ K.QDF_SAP_MODE → m ≠ K.QDF_P2P_GO_MODE →
      (hdd_ctx.psoc m).isSome = true) :
    ∃ c r, hdd_green_ap_check_enable K hdd_ctx.psoc false = some c ∧ c.ret = 0 ∧
      hdd_green_ap_start_state_mc K hdd_ctx mode true = some r ∧ r.ret = 0 ∧
      commands r.trace = (if c.enable_green_ap = true then EnableGreenAp else []) ∧
      Call.ucfg_green_ap_set_ps_config false ∉ r.trace ∧ Call.wlan_green_ap_stop ∉ r.trace := by
  obtain ⟨c, hc, hret⟩ := check_enable_total K hdd_ctx.psoc false hmax hok
  obtain ⟨hcfg, hvht⟩ := hsane
  obtain ⟨hps, hen⟩ := hon
  obtain ⟨b, hb⟩ := Option.isSome_iff_exists.1 hvht
  obtain ⟨h1, h2, h3, h4⟩ := hlabels
  have hnsta : ¬ (mode = K.QDF_STA_MODE ∨ mode = K.QDF_P2P_CLIENT_MODE) := by
    rcases hmode with rfl | rfl
    · exact fun h => h.elim h1 h2
    · exact fun h => h.elim h3 h4
  have hcmd := check_enable_commands K hdd_ctx.psoc false c hc
  have hlook := check_enable_trace K hdd_ctx.psoc false c hc
  have hno1 : Call.ucfg_green_ap_set_ps_config false ∉ c.trace := fun hm => by
    simpa [Call.isLookup] using hlook _ hm
  have hno2 : Call.wlan_green_ap_stop ∉ c.trace := fun hm => by
    simpa [Call.isLookup] using hlook _ hm
  have key : ∃ r, hdd_green_ap_start_state_mc K hdd_ctx mode true = some r ∧ r.ret = 0 ∧
      commands r.trace = (if c.enable_green_ap = true then EnableGreenAp else []) ∧
      Call.ucfg_green_ap_set_ps_config false ∉ r.trace ∧
      Call.wlan_green_ap_stop ∉ r.trace := by
    unfold hdd_green_ap_start_state_mc
    cases hv : c.enable_green_ap <;>
      simp [hcfg, hb, hps, hen, hmode, hnsta, hc, hret, hv, commands_append, hcmd,
        EnableGreenAp, hno1, hno2, commands_cons, commands_nil, Call.isCommand]
  obtain ⟨r, hr, hr0, hrc, hrd1, hrd2⟩ := key
  exact ⟨c, r, hc, hret, hr, hr0, hrc, hrd1, hrd2⟩

/-- C5 at scenario E of the specification: SAP START while station mode has
two sessions. -/
theorem start_state_mc_ap_start_witness :
    ∃ c r, hdd_green_ap_check_enable qcacld (ctxOn (oneMode 0 2)).psoc false = some c ∧
      c.ret = 0 ∧
      hdd_green_ap_start_state_mc qcacld (ctxOn (oneMode 0 2)) 1 true = some r ∧ r.ret = 0 ∧
      commands r.trace = (if c.enable_green_ap = true then EnableGreenAp else []) ∧
      Call.ucfg_green_ap_set_ps_config false ∉ r.trace ∧ Call.wlan_green_ap_stop ∉ r.trace :=
  start_state_mc_ap_start qcacld (ctxOn (oneMode 0 2)) 1 (by decide) (Or.inl rfl)
    ⟨rfl, rfl⟩ ⟨rfl, by decide⟩ (by decide)
    (fun m _ _ _ => by unfold ctxOn oneMode; dsimp only; split <;> rfl)

/-- C6: AP-like STOP with the feature on. The function issues DisableGreenAp
exactly when no SAP and no P2P GO session is left and no command otherwise,
never EnableGreenAp; it returns 0; its only registry reads are the two of
lines 130-135, so the evaluator is not consulted. -/
theorem start_state_mc_ap_stop (K : Consts) (hdd_ctx : hdd_context) (mode : Nat)
    (hlabels : K.DistinctLabels)
    (hmode : mode = K.QDF_SAP_MODE ∨ mode = K.QDF_P2P_GO_MODE)
    (hsane : hdd_ctx.sane) (hon : hdd_ctx.pdev.featureOn) :
    ∃ r, hdd_green_ap_start_state_mc K hdd_ctx mode false = some r ∧ r.ret = 0 ∧
      commands r.trace =
        (if sap_count K hdd_ctx.psoc = 0 ∧ go_count K hdd_ctx.psoc = 0 then DisableGreenAp
         else []) ∧
      lookups r.trace = [.policy_mgr_mode_specific_num_active_sessions K.QDF_SAP_MODE,
        .policy_mgr_mode_specific_num_active_sessions K.QDF_P2P_GO_MODE] := by
  obtain ⟨hcfg, hvht⟩ := hsane
  obtain ⟨hps, hen⟩ := hon
  obtain ⟨b, hb⟩ := Option.isSome_iff_exists.1 hvht
  obtain ⟨h1, h2, h3, h4⟩ := hlabels
  have hnsta : ¬ (mode = K.QDF_STA_MODE ∨ mode = K.QDF_P2P_CLIENT_MODE) := by
    rcases hmode with rfl | rfl
    · exact fun h => h.elim h1 h2
    · exact fun h => h.elim h3 h4
  unfold hdd_green_ap_start_state_mc
  by_cases hz : sap_count K hdd_ctx.psoc = 0 ∧ go_count K hdd_ctx.psoc = 0
  · have hz2 := hz
    unfold sap_count go_count at hz2
    simp [hcfg, hb, hps, hen, hmode, hnsta, hz, hz2, commands, lookups, Call.isCommand,
      Call.isLookup, DisableGreenAp]
  · have hz2 := hz
    unfold sap_count go_count at hz2
    simp [hcfg, hb, hps, hen, hmode, hnsta, hz, hz2, commands, lookups, Call.isCommand,
      Call.isLookup]

/-- C6 at scenario D of the specification: the last SAP stops. -/
theorem start_state_mc_ap_stop_witness :
    ∃ r, hdd_green_ap_start_state_mc qcacld (ctxOn idleRegistry) 1 false = some r ∧ r.ret = 0 ∧
      commands r.trace =
        (if sap_count qcacld (ctxOn idleRegistry).psoc = 0 ∧
            go_count qcacld (ctxOn idleRegistry).psoc = 0 then DisableGreenAp
         else []) ∧
      lookups r.trace = [.policy_mgr_mode_specific_num_active_sessions qcacld.QDF_SAP_MODE,
        .policy_mgr_mode_specific_num_active_sessions qcacld.QDF_P2P_GO_MODE] :=
  start_state_mc_ap_stop qcacld (ctxOn idleRegistry) 1 (by decide) (Or.inl rfl)
    ⟨rfl, rfl⟩ ⟨rfl, by decide⟩

/-- C7: feature-off invariant. When `ucfg_green_ap_get_ps_config` fails or gives
a flag of 0, `hdd_green_ap_start_state_mc` issues no enable/disable command and
leaves the engine as it was, for every mode, direction and registry; and the
call in which the flag was read (sanity checks passed) returns 0. -/
theorem start_state_mc_feature_off (K : Consts) (hdd_ctx : hdd_context) (mode : Nat)
    (is_session_start : Bool)
    (hoff : hdd_ctx.pdev.get_ps_config_ok = false ∨ hdd_ctx.pdev.ps_enable = 0) :
    ∃ r, hdd_green_ap_start_state_mc K hdd_ctx mode is_session_start = some r ∧
      commands r.trace = [] ∧ r.pdev = hdd_ctx.pdev ∧ (hdd_ctx.sane → r.ret = 0) := by
  unfold hdd_green_ap_start_state_mc
  cases hcfg : hdd_ctx.config with
  | false => exact ⟨_, rfl, rfl, rfl, fun h => by simp [hdd_context.sane, hcfg] at h⟩
  | true =>
    cases hvht : hdd_ctx.vht_enable2x2 with
    | none => exact ⟨_, rfl, rfl, rfl, fun h => by simp [hdd_context.sane, hvht] at h⟩
    | some b =>
      rcases hoff with hoff | hoff
      · simp [hoff, commands, Call.isCommand]
      · cases hps : hdd_ctx.pdev.get_ps_config_ok <;> simp [hoff, commands, Call.isCommand]

/-- C7 at a flag of 0: a station START next to a running SAP, which would
disable Green AP with the feature on, does nothing. -/
theorem start_state_mc_feature_off_witness :
    ∃ r, hdd_green_ap_start_state_mc qcacld
        { ctxOn (oneMode 1 1) with pdev := { engineOn with ps_enable := 0 } } 0 true = some r ∧
      commands r.trace = [] ∧ r.pdev = { engineOn with ps_enable := 0 } ∧
      (hdd_context.sane { ctxOn (oneMode 1 1) with pdev := { engineOn with ps_enable := 0 } } →
        r.ret = 0) :=
  start_state_mc_feature_off qcacld
    { ctxOn (oneMode 1 1) with pdev := { engineOn with ps_enable := 0 } } 0 true (Or.inr rfl)

/-- C8: for a mode that is none of QDF_STA_MODE, QDF_P2P_CLIENT_MODE,
QDF_SAP_MODE, QDF_P2P_GO_MODE, whatever the direction, the registry and the
engine, `hdd_green_ap_start_state_mc` issues no command and leaves the engine
as it was; past the sanity checks it returns 0. -/
theorem start_state_mc_other_mode (K : Consts) (hdd_ctx : hdd_context) (mode : Nat)
    (is_session_start : Bool)
    (hsta : mode ≠ K.QDF_STA_MODE) (hcli : mode ≠ K.QDF_P2P_CLIENT_MODE)
    (hsap : mode ≠ K.QDF_SAP_MODE) (hgo : mode ≠ K.QDF_P2P_GO_MODE) :
    ∃ r, hdd_green_ap_start_state_mc K hdd_ctx mode is_session_start = some r ∧
      commands r.trace = [] ∧ r.pdev = hdd_ctx.pdev ∧ (hdd_ctx.sane → r.ret = 0) := by
  unfold hdd_green_ap_start_state_mc
  cases hcfg : hdd_ctx.config with
  | false => exact ⟨_, rfl, rfl, rfl, fun h => by simp [hdd_context.sane, hcfg] at h⟩
  | true =>
    cases hvht : hdd_ctx.vht_enable2x2 with
    | none => exact ⟨_, rfl, rfl, rfl, fun h => by simp [hdd_context.sane, hvht] at h⟩
    | some b =>
      cases hps : hdd_ctx.pdev.get_ps_config_ok
      · simp [commands, Call.isCommand]
      · by_cases hz : hdd_ctx.pdev.ps_enable = 0
        · simp [hz, commands, Call.isCommand]
        · simp [hz, hsta, hcli, hsap, hgo, commands, Call.isCommand]

/-- C8 at QDF_FTM_MODE (4) starting next to a running SAP and a station. -/
theorem start_state_mc_other_mode_witness :
    ∃ r, hdd_green_ap_start_state_mc qcacld (ctxOn (fun _ => some 1)) 4 true = some r ∧
      commands r.trace = [] ∧ r.pdev = engineOn ∧
      (hdd_context.sane (ctxOn (fun _ => some 1)) → r.ret = 0) :=
  start_state_mc_other_mode qcacld (ctxOn (fun _ => some 1)) 4 true
    (by decide) (by decide) (by decide) (by decide)

/-- C9: the request set_doze(2, 100) at the driver's enumerators, lifecycle
guard acquired. The inner handler rejects the state and returns -EINVAL
without calling the engine; the public entry point
`wlan_hdd_enter_sap_low_pwr_mode` releases the guard and returns 0. -/
theorem enter_sap_low_pwr_mode_invalid_state :
    (__wlan_hdd_enter_sap_low_pwr_mode qcacld (ctxOn idleRegistry) ⟨0, 100⟩
        ⟨true, some 2⟩).ret = -EINVAL ∧
      (wlan_hdd_enter_sap_low_pwr_mode qcacld (ctxOn idleRegistry) ⟨0, 100⟩
        ⟨true, some 2⟩).ret = 0 ∧
      (wlan_hdd_enter_sap_low_pwr_mode qcacld (ctxOn idleRegistry) ⟨0, 100⟩
        ⟨true, some 2⟩).trace =
        [.osif_vdev_sync_op_start, .wlan_cfg80211_nla_parse, .osif_vdev_sync_op_stop] := by
  decide

/-- C10: a doze request that parses and carries a state value v not above
QCA_WLAN_DOZED_AP_ENABLE (the values 0 and 1 when ENABLE is 1), on an AP with
beacon interval b. The inner handler makes two calls, the attribute parse and
one `ucfg_green_ap_ll_ps` with exactly v and b; it makes no registry read; it
returns 0 when the engine reports success. With the guard acquired the whole
path is: guard start, parse, that one engine call, guard stop. -/
theorem enter_sap_low_pwr_mode_forwards (K : Consts) (hdd_ctx : hdd_context)
    (wdev : wireless_dev) (v : Nat) (hv : v ≤ K.QCA_WLAN_DOZED_AP_ENABLE) :
    (__wlan_hdd_enter_sap_low_pwr_mode K hdd_ctx wdev ⟨true, some v⟩).trace =
        [.wlan_cfg80211_nla_parse, .ucfg_green_ap_ll_ps v wdev.beacon_int] ∧
      lookups (__wlan_hdd_enter_sap_low_pwr_mode K hdd_ctx wdev ⟨true, some v⟩).trace = [] ∧
      (hdd_ctx.pdev.ll_ps_ok v wdev.beacon_int = true →
        (__wlan_hdd_enter_sap_low_pwr_mode K hdd_ctx wdev ⟨true, some v⟩).ret = 0) ∧
      (wdev.sync_op_start = 0 →
        (wlan_hdd_enter_sap_low_pwr_mode K hdd_ctx wdev ⟨true, some v⟩).trace =
          [.osif_vdev_sync_op_start, .wlan_cfg80211_nla_parse,
           .ucfg_green_ap_ll_ps v wdev.beacon_int, .osif_vdev_sync_op_stop]) := by
  have hnot : ¬ v > K.QCA_WLAN_DOZED_AP_ENABLE := by omega
  have htrace : (__wlan_hdd_enter_sap_low_pwr_mode K hdd_ctx wdev ⟨true, some v⟩).trace =
      [.wlan_cfg80211_nla_parse, .ucfg_green_ap_ll_ps v wdev.beacon_int] := by
    unfold __wlan_hdd_enter_sap_low_pwr_mode
    cases hok : hdd_ctx.pdev.ll_ps_ok v wdev.beacon_int <;> simp [hnot, hok]
  refine ⟨htrace, ?_, ?_, ?_⟩
  · rw [htrace]; simp [lookups, Call.isLookup]
  · intro hok
    unfold __wlan_hdd_enter_sap_low_pwr_mode
    simp [hnot, hok]
  · intro hsync
    unfold wlan_hdd_enter_sap_low_pwr_mode
    simp [hsync, htrace]

/-- C10 at set_doze(1, 100) of the specification, engine accepting. -/
theorem enter_sap_low_pwr_mode_forwards_witness :
    (__wlan_hdd_enter_sap_low_pwr_mode qcacld (ctxOn idleRegistry) ⟨0, 100⟩
        ⟨true, some 1⟩).trace =
        [.wlan_cfg80211_nla_parse, .ucfg_green_ap_ll_ps 1 100] ∧
      lookups (__wlan_hdd_enter_sap_low_pwr_mode qcacld (ctxOn idleRegistry) ⟨0, 100⟩
        ⟨true, some 1⟩).trace = [] ∧
      ((ctxOn idleRegistry).pdev.ll_ps_ok 1 100 = true →
        (__wlan_hdd_enter_sap_low_pwr_mode qcacld (ctxOn idleRegistry) ⟨0, 100⟩
          ⟨true, some 1⟩).ret = 0) ∧
      ((0 : Int) = 0 →
        (wlan_hdd_enter_sap_low_pwr_mode qcacld (ctxOn idleRegistry) ⟨0, 100⟩
          ⟨true, some 1⟩).trace =
          [.osif_vdev_sync_op_start, .wlan_cfg80211_nla_parse,
           .ucfg_green_ap_ll_ps 1 100, .osif_vdev_sync_op_stop]) :=
  enter_sap_low_pwr_mode_forwards qcacld (ctxOn idleRegistry) ⟨0, 100⟩ 1 (by decide)

/-- C11: the request set_doze(1, 100) at the driver's enumerators, lifecycle
guard acquired, on an engine that rejects the command. The inner handler
forwards (1, 100), sees the failure and returns -EINVAL; the public entry
point `wlan_hdd_enter_sap_low_pwr_mode` returns 0. -/
theorem enter_sap_low_pwr_mode_engine_failure :
    (__wlan_hdd_enter_sap_low_pwr_mode qcacld
        { ctxOn idleRegistry with pdev := engineFailing } ⟨0, 100⟩ ⟨true, some 1⟩).ret = -EINVAL ∧
      (wlan_hdd_enter_sap_low_pwr_mode qcacld
        { ctxOn idleRegistry with pdev := engineFailing } ⟨0, 100⟩ ⟨true, some 1⟩).ret = 0 ∧
      (wlan_hdd_enter_sap_low_pwr_mode qcacld
        { ctxOn idleRegistry with pdev := engineFailing } ⟨0, 100⟩ ⟨true, some 1⟩).trace =
        [.osif_vdev_sync_op_start, .wlan_cfg80211_nla_parse, .ucfg_green_ap_ll_ps 1 100,
         .osif_vdev_sync_op_stop] := by
  decide

/-- C12: when `osif_vdev_sync_op_start` gives an error e (not 0),
`wlan_hdd_enter_sap_low_pwr_mode` returns exactly e, whatever the request; the
guard acquisition is the only call it makes (no attribute parse, no engine
call, no guard release) and the engine is as it was. -/
theorem enter_sap_low_pwr_mode_guard_failure (K : Consts) (hdd_ctx : hdd_context)
    (wdev : wireless_dev) (data : DozeRequest) (he : wdev.sync_op_start ≠ 0) :
    (wlan_hdd_enter_sap_low_pwr_mode K hdd_ctx wdev data).ret = wdev.sync_op_start ∧
      (wlan_hdd_enter_sap_low_pwr_mode K hdd_ctx wdev data).trace = [.osif_vdev_sync_op_start] ∧
      (wlan_hdd_enter_sap_low_pwr_mode K hdd_ctx wdev data).pdev = hdd_ctx.pdev := by
  unfold wlan_hdd_enter_sap_low_pwr_mode
  simp [he]

/-- C12 at an acquisition that fails with -EBUSY (-16) on a valid request. -/
theorem enter_sap_low_pwr_mode_guard_failure_witness :
    (wlan_hdd_enter_sap_low_pwr_mode qcacld (ctxOn idleRegistry) ⟨-16, 100⟩
        ⟨true, some 1⟩).ret = (wireless_dev.mk (-16) 100).sync_op_start ∧
      (wlan_hdd_enter_sap_low_pwr_mode qcacld (ctxOn idleRegistry) ⟨-16, 100⟩
        ⟨true, some 1⟩).trace = [.osif_vdev_sync_op_start] ∧
      (wlan_hdd_enter_sap_low_pwr_mode qcacld (ctxOn idleRegistry) ⟨-16, 100⟩
        ⟨true, some 1⟩).pdev = (ctxOn idleRegistry).pdev :=
  enter_sap_low_pwr_mode_guard_failure qcacld (ctxOn idleRegistry) ⟨-16, 100⟩ ⟨true, some 1⟩
    (by decide)

/-- The inner doze handler makes no call on the lifecycle guard. -/
theorem inner_low_pwr_mode_no_sync (K : Consts) (hdd_ctx : hdd_context) (wdev : wireless_dev)
    (data : DozeRequest) :
    Call.osif_vdev_sync_op_stop ∉ (__wlan_hdd_enter_sap_low_pwr_mode K hdd_ctx wdev data).trace ∧
    Call.osif_vdev_sync_op_start ∉
      (__wlan_hdd_enter_sap_low_pwr_mode K hdd_ctx wdev data).trace := by
  unfold __wlan_hdd_enter_sap_low_pwr_mode
  cases data.nla_parse_ok
  · simp
  · cases data.dozed_ap_state with
    | none => simp
    | some v =>
      by_cases hv : v > K.QCA_WLAN_DOZED_AP_ENABLE
      · simp [hv]
      · cases hok : hdd_ctx.pdev.ll_ps_ok v wdev.beacon_int <;> simp [hv, hok]

/-- C13: when `osif_vdev_sync_op_start` succeeds, the trace of
`wlan_hdd_enter_sap_low_pwr_mode` is the acquisition, then the calls of the
inner handler, then `osif_vdev_sync_op_stop`: the release is the last call
made and occurs exactly once, whatever the request and the engine do
(success, parse or validation failure, engine failure). -/
theorem enter_sap_low_pwr_mode_releases (K : Consts) (hdd_ctx : hdd_context)
    (wdev : wireless_dev) (data : DozeRequest) (hacq : wdev.sync_op_start = 0) :
    (wlan_hdd_enter_sap_low_pwr_mode K hdd_ctx wdev data).trace =
        [.osif_vdev_sync_op_start] ++
          (__wlan_hdd_enter_sap_low_pwr_mode K hdd_ctx wdev data).trace ++
          [.osif_vdev_sync_op_stop] ∧
      (wlan_hdd_enter_sap_low_pwr_mode K hdd_ctx wdev data).trace.count
        .osif_vdev_sync_op_stop = 1 ∧
      (wlan_hdd_enter_sap_low_pwr_mode K hdd_ctx wdev data).trace.getLast? =
        some .osif_vdev_sync_op_stop := by
  have htrace : (wlan_hdd_enter_sap_low_pwr_mode K hdd_ctx wdev data).trace =
      [.osif_vdev_sync_op_start] ++
        (__wlan_hdd_enter_sap_low_pwr_mode K hdd_ctx wdev data).trace ++
        [.osif_vdev_sync_op_stop] := by
    unfold wlan_hdd_enter_sap_low_pwr_mode
    simp [hacq]
  have hno := (inner_low_pwr_mode_no_sync K hdd_ctx wdev data).1
  refine ⟨htrace, ?_, ?_⟩
  · rw [htrace]
    simp [List.count_append, List.count_eq_zero_of_not_mem hno]
  · rw [htrace, List.getLast?_append]
    rfl

/-- C13 on the engine-failure exit path: set_doze(1, 100), engine rejecting. -/
theorem enter_sap_low_pwr_mode_releases_witness :
    (wlan_hdd_enter_sap_low_pwr_mode qcacld { ctxOn idleRegistry with pdev := engineFailing }
        ⟨0, 100⟩ ⟨true, some 1⟩).trace =
        [.osif_vdev_sync_op_start] ++
          (__wlan_hdd_enter_sap_low_pwr_mode qcacld
            { ctxOn idleRegistry with pdev := engineFailing } ⟨0, 100⟩ ⟨true, some 1⟩).trace ++
          [.osif_vdev_sync_op_stop] ∧
      (wlan_hdd_enter_sap_low_pwr_mode qcacld { ctxOn idleRegistry with pdev := engineFailing }
        ⟨0, 100⟩ ⟨true, some 1⟩).trace.count .osif_vdev_sync_op_stop = 1 ∧
      (wlan_hdd_enter_sap_low_pwr_mode qcacld { ctxOn idleRegistry with pdev := engineFailing }
        ⟨0, 100⟩ ⟨true, some 1⟩).trace.getLast? = some .osif_vdev_sync_op_stop :=
  enter_sap_low_pwr_mode_releases qcacld { ctxOn idleRegistry with pdev := engineFailing }
    ⟨0, 100⟩ ⟨true, some 1⟩ rfl

/-! ## The flag written by the commands -/

/-- With a flag of 0 the function issues no command and leaves the engine as
it was; past the sanity checks it returns 0. -/
theorem start_state_mc_flag_zero (K : Consts) (hdd_ctx : hdd_context) (mode : Nat)
    (is_session_start : Bool) (hz : hdd_ctx.pdev.ps_enable = 0) :
    ∃ r, hdd_green_ap_start_state_mc K hdd_ctx mode is_session_start = some r ∧
      commands r.trace = [] ∧ r.pdev = hdd_ctx.pdev ∧ (hdd_ctx.sane → r.ret = 0) := by
  unfold hdd_green_ap_start_state_mc
  cases hcfg : hdd_ctx.config with
  | false => exact ⟨_, rfl, rfl, rfl, fun h => by simp [hdd_context.sane, hcfg] at h⟩
  | true =>
    cases hvht : hdd_ctx.vht_enable2x2 with
    | none => exact ⟨_, rfl, rfl, rfl, fun h => by simp [hdd_context.sane, hvht] at h⟩
    | some b =>
      cases hps : hdd_ctx.pdev.get_ps_config_ok <;> simp [hz, commands, Call.isCommand]

/-- The three shapes a call can take: no command and the engine untouched; or
EnableGreenAp with the flag write of true; or DisableGreenAp with the flag
write of false. The last two only past the sanity checks with the feature on. -/
theorem start_state_mc_shapes (K : Consts) (hdd_ctx : hdd_context) (mode : Nat)
    (is_session_start : Bool) (r : Outcome)
    (h : hdd_green_ap_start_state_mc K hdd_ctx mode is_session_start = some r) :
    (commands r.trace = [] ∧ r.pdev = hdd_ctx.pdev) ∨
    (hdd_ctx.pdev.featureOn ∧ commands r.trace = EnableGreenAp ∧
      r.pdev = ucfg_green_ap_set_ps_config hdd_ctx.pdev true) ∨
    (hdd_ctx.pdev.featureOn ∧ commands r.trace = DisableGreenAp ∧
      r.pdev = ucfg_green_ap_set_ps_config hdd_ctx.pdev false) := by
  have block : ∀ (t1 : List Call), commands t1 = [] → hdd_ctx.pdev.featureOn →
      (match hdd_green_ap_check_enable K hdd_ctx.psoc false with
        | none => none
        | some c =>
          if (c.ret % 256).toNat = 0 then
            if c.enable_green_ap = true then
              some (Outcome.mk ((c.ret % 256).toNat : Int) (t1 ++ c.trace ++
                  [.ucfg_green_ap_set_ps_config true, .wlan_green_ap_start])
                (ucfg_green_ap_set_ps_config hdd_ctx.pdev true))
            else some ⟨((c.ret % 256).toNat : Int), t1 ++ c.trace, hdd_ctx.pdev⟩
          else some ⟨((c.ret % 256).toNat : Int), t1 ++ c.trace, hdd_ctx.pdev⟩) = some r →
      (commands r.trace = [] ∧ r.pdev = hdd_ctx.pdev) ∨
      (hdd_ctx.pdev.featureOn ∧ commands r.trace = EnableGreenAp ∧
        r.pdev = ucfg_green_ap_set_ps_config hdd_ctx.pdev true) ∨
      (hdd_ctx.pdev.featureOn ∧ commands r.trace = DisableGreenAp ∧
        r.pdev = ucfg_green_ap_set_ps_config hdd_ctx.pdev false) := by
    intro t1 ht1 hon hb
    cases hc : hdd_green_ap_check_enable K hdd_ctx.psoc false with
    | none => rw [hc] at hb; simp at hb
    | some c =>
      rw [hc] at hb
      have hcmd := check_enable_commands K hdd_ctx.psoc false c hc
      dsimp only at hb
      split at hb
      · split at hb
        · simp only [Option.some.injEq] at hb
          subst hb
          refine Or.inr (Or.inl ⟨hon, ?_, rfl⟩)
          simp [commands_append, ht1, hcmd, commands_cons, commands_nil, Call.isCommand,
            EnableGreenAp]
        · simp only [Option.some.injEq] at hb
          subst hb
          exact Or.inl ⟨by simp [commands_append, ht1, hcmd], rfl⟩
      · simp only [Option.some.injEq] at hb
        subst hb
        exact Or.inl ⟨by simp [commands_append, ht1, hcmd], rfl⟩
  unfold hdd_green_ap_start_state_mc at h
  split at h
  · simp only [Option.some.injEq] at h; subst h; exact Or.inl ⟨rfl, rfl⟩
  · split at h
    · simp only [Option.some.injEq] at h; subst h; exact Or.inl ⟨rfl, rfl⟩
    · dsimp only at h
      split at h
      · simp only [Option.some.injEq] at h; subst h; exact Or.inl ⟨rfl, rfl⟩
      · rename_i hps
        split at h
        · simp only [Option.some.injEq] at h; subst h; exact Or.inl ⟨rfl, rfl⟩
        · rename_i hen
          have hon : hdd_ctx.pdev.featureOn := ⟨by simpa using hps, hen⟩
          split at h
          · split at h
            · simp only [Option.some.injEq] at h; subst h; exact Or.inl ⟨rfl, rfl⟩
            · split at h
              · simp only [Option.some.injEq] at h; subst h
                exact Or.inr (Or.inr ⟨hon, rfl, rfl⟩)
              · exact block _ (by rfl) hon h
          · split at h
            · split at h
              · exact block _ (by rfl) hon h
              · split at h
                · simp only [Option.some.injEq] at h; subst h
                  exact Or.inr (Or.inr ⟨hon, rfl, rfl⟩)
                · simp only [Option.some.injEq] at h; subst h; exact Or.inl ⟨rfl, rfl⟩
            · simp only [Option.some.injEq] at h; subst h; exact Or.inl ⟨rfl, rfl⟩

/-- The return value and the trace of a call depend on the engine only through
the status of `ucfg_green_ap_get_ps_config` and whether the flag is 0. -/
theorem start_state_mc_engine_congr (K : Consts) (hdd_ctx : hdd_context) (pdev : Engine)
    (mode : Nat) (is_session_start : Bool)
    (hg : pdev.get_ps_config_ok = hdd_ctx.pdev.get_ps_config_ok)
    (hz : pdev.ps_enable = 0 ↔ hdd_ctx.pdev.ps_enable = 0) :
    (hdd_green_ap_start_state_mc K { hdd_ctx with pdev := pdev } mode is_session_start).map
        (fun r => (r.ret, r.trace)) =
      (hdd_green_ap_start_state_mc K hdd_ctx mode is_session_start).map
        (fun r => (r.ret, r.trace)) := by
  unfold hdd_green_ap_start_state_mc
  cases hdd_ctx.config with
  | false => rfl
  | true =>
    cases hdd_ctx.vht_enable2x2 with
    | none => rfl
    | some b =>
      simp only [hg]
      cases hdd_ctx.pdev.get_ps_config_ok with
      | false => rfl
      | true =>
        by_cases hen : hdd_ctx.pdev.ps_enable = 0
        · simp [hen, hz.2 hen]
        · have hen2 : ¬ pdev.ps_enable = 0 := fun h => hen (hz.1 h)
          simp only [hen, hen2, if_false, Bool.not_true, Bool.false_eq_true]
          cases hdd_green_ap_check_enable K hdd_ctx.psoc false with
          | none => split_ifs <;> rfl
          | some c => dsimp only; split_ifs <;> rfl

/-- The flag write leaves the status of `ucfg_green_ap_get_ps_config` alone. -/
theorem set_ps_config_get_ok (pdev : Engine) (value : Bool) :
    (ucfg_green_ap_set_ps_config pdev value).get_ps_config_ok = pdev.get_ps_config_ok := by
  unfold ucfg_green_ap_set_ps_config
  split <;> rfl

/-- The flag write leaves the status of later flag writes alone. -/
theorem set_ps_config_set_ok (pdev : Engine) (value : Bool) :
    (ucfg_green_ap_set_ps_config pdev value).set_ps_config_ok = pdev.set_ps_config_ok := by
  unfold ucfg_green_ap_set_ps_config
  split <;> rfl

/-- A write of true on an engine whose flag is not 0 leaves it not 0. -/
theorem set_ps_config_true_on (pdev : Engine) (h : pdev.ps_enable ≠ 0) :
    (ucfg_green_ap_set_ps_config pdev true).ps_enable ≠ 0 := by
  unfold ucfg_green_ap_set_ps_config
  split
  · simp
  · exact h

/-- A write of false that is accepted sets the flag to 0. -/
theorem set_ps_config_false_off (pdev : Engine) (h : pdev.set_ps_config_ok = true) :
    (ucfg_green_ap_set_ps_config pdev false).ps_enable = 0 := by
  unfold ucfg_green_ap_set_ps_config
  simp [h]

/-- A write that is refused leaves the engine as it was. -/
theorem set_ps_config_refused (pdev : Engine) (value : Bool)
    (h : pdev.set_ps_config_ok = false) : ucfg_green_ap_set_ps_config pdev value = pdev := by
  unfold ucfg_green_ap_set_ps_config
  simp [h]

/-- C14, as stated, fails: a station START next to one SAP session, feature on.
The first call issues DisableGreenAp and writes the flag; the second call, same
arguments and registry, on the engine the first one left, issues no command. -/
theorem start_state_mc_twice_counterexample :
    (hdd_green_ap_start_state_mc qcacld (ctxOn (oneMode 1 1)) 0 true).bind
        (fun r1 =>
          (hdd_green_ap_start_state_mc qcacld
              { ctxOn (oneMode 1 1) with pdev := r1.pdev } 0 true).map
            (fun r2 => (commands r1.trace, r1.pdev.ps_enable, commands r2.trace))) =
      some (DisableGreenAp, 0, []) := by
  decide

/-- C14, amended: a call of `hdd_green_ap_start_state_mc` that returns, followed
by a second call with the same mode, direction and registry on the engine the
first one left. The second call returns, and it issues the same command as the
first, except after a DisableGreenAp whose flag write was accepted: then the
second call issues no command. -/
theorem start_state_mc_twice (K : Consts) (hdd_ctx : hdd_context) (mode : Nat)
    (is_session_start : Bool) (r1 : Outcome)
    (h1 : hdd_green_ap_start_state_mc K hdd_ctx mode is_session_start = some r1) :
    ∃ r2, hdd_green_ap_start_state_mc K { hdd_ctx with pdev := r1.pdev } mode
        is_session_start = some r2 ∧
      commands r2.trace =
        (if commands r1.trace = DisableGreenAp ∧ hdd_ctx.pdev.set_ps_config_ok = true then []
         else commands r1.trace) := by
  have same : ∀ p : Engine, p.get_ps_config_ok = hdd_ctx.pdev.get_ps_config_ok →
      (p.ps_enable = 0 ↔ hdd_ctx.pdev.ps_enable = 0) →
      ∃ r2, hdd_green_ap_start_state_mc K { hdd_ctx with pdev := p } mode
        is_session_start = some r2 ∧ commands r2.trace = commands r1.trace := by
    intro p hg hz
    have hmap := start_state_mc_engine_congr K hdd_ctx p mode is_session_start hg hz
    rw [h1] at hmap
    obtain ⟨r2, hr2, heq⟩ := Option.map_eq_some'.1 hmap
    refine ⟨r2, hr2, ?_⟩
    have : r2.trace = r1.trace := congrArg Prod.snd heq
    rw [this]
  rcases start_state_mc_shapes K hdd_ctx mode is_session_start r1 h1 with
    ⟨hc, hp⟩ | ⟨hon, hc, hp⟩ | ⟨hon, hc, hp⟩
  · obtain ⟨r2, hr2, hcmd⟩ := same hdd_ctx.pdev rfl Iff.rfl
    rw [hp]
    refine ⟨r2, hr2, ?_⟩
    rw [hcmd, hc]
    simp
  · obtain ⟨r2, hr2, hcmd⟩ := same (ucfg_green_ap_set_ps_config hdd_ctx.pdev true)
      (set_ps_config_get_ok _ _)
      ⟨fun h => absurd h (set_ps_config_true_on _ hon.2), fun h => absurd h hon.2⟩
    rw [hp]
    refine ⟨r2, hr2, ?_⟩
    rw [hcmd, hc]
    have hne : ¬ (EnableGreenAp = DisableGreenAp) := by decide
    simp [hne]
  · cases hok : hdd_ctx.pdev.set_ps_config_ok with
    | true =>
      have hoff : ({ hdd_ctx with pdev := r1.pdev } : hdd_context).pdev.ps_enable = 0 := by
        rw [hp]
        exact set_ps_config_false_off _ hok
      obtain ⟨r2, hr2, hcmd, -, -⟩ := start_state_mc_flag_zero K
        { hdd_ctx with pdev := r1.pdev } mode is_session_start hoff
      exact ⟨r2, hr2, by simp [hcmd, hc]⟩
    | false =>
      obtain ⟨r2, hr2, hcmd⟩ := same hdd_ctx.pdev rfl Iff.rfl
      rw [hp, set_ps_config_refused _ _ hok]
      exact ⟨r2, hr2, by simp [hcmd]⟩

/-- C14 amended, at a station STOP next to one SAP session: EnableGreenAp the
first time and EnableGreenAp again the second time. -/
theorem start_state_mc_twice_witness :
    ∃ r2, hdd_green_ap_start_state_mc qcacld
        { ctxOn (oneMode 1 1) with pdev := ucfg_green_ap_set_ps_config engineOn true } 0
        false = some r2 ∧
      commands r2.trace =
        (if commands
            ([Call.ucfg_mlme_get_vht_enable2x2, Call.ucfg_green_ap_get_ps_config,
              Call.policy_mgr_mode_specific_num_active_sessions 1,
              Call.policy_mgr_mode_specific_num_active_sessions 3] ++
             [0, 2, 4, 5, 6, 7, 8, 9, 10, 11, 12, 13, 14, 15, 16].map
               Call.policy_mgr_mode_specific_num_active_sessions ++ EnableGreenAp) =
              DisableGreenAp ∧
            (ctxOn (oneMode 1 1)).pdev.set_ps_config_ok = true then []
         else commands
            ([Call.ucfg_mlme_get_vht_enable2x2, Call.ucfg_green_ap_get_ps_config,
              Call.policy_mgr_mode_specific_num_active_sessions 1,
              Call.policy_mgr_mode_specific_num_active_sessions 3] ++
             [0, 2, 4, 5, 6, 7, 8, 9, 10, 11, 12, 13, 14, 15, 16].map
               Call.policy_mgr_mode_specific_num_active_sessions ++ EnableGreenAp)) :=
  start_state_mc_twice qcacld (ctxOn (oneMode 1 1)) 0 false
    ⟨0,
     [Call.ucfg_mlme_get_vht_enable2x2, Call.ucfg_green_ap_get_ps_config,
      Call.policy_mgr_mode_specific_num_active_sessions 1,
      Call.policy_mgr_mode_specific_num_active_sessions 3] ++
     [0, 2, 4, 5, 6, 7, 8, 9, 10, 11, 12, 13, 14, 15, 16].map
       Call.policy_mgr_mode_specific_num_active_sessions ++ EnableGreenAp,
     ucfg_green_ap_set_ps_config engineOn true⟩
    rfl

/-! ## A failing read in the evaluator -/

/-- The loop entered at `mode`, with a failing read at a non-AP-like mode m it
has still to visit and no non-zero count before m: it returns -EINVAL and
leaves `*enable_green_ap` alone. -/
theorem check_enable_loop_fails (K : Consts) (psoc : Registry) (e : Bool) (m : Nat)
    (hm : m < K.QDF_MAX_NO_OF_MODE) (hm256 : m < 256)
    (hsap : m ≠ K.QDF_SAP_MODE) (hgo : m ≠ K.QDF_P2P_GO_MODE) (hfail : psoc m = none) :
    ∀ (fuel mode : Nat) (trace : List Call), mode ≤ m → m - mode < fuel →
      (∀ k, mode ≤ k → k < m → k ≠ K.QDF_SAP_MODE → k ≠ K.QDF_P2P_GO_MODE →
        ∀ n, psoc k = some n → n = 0) →
      ∃ r, hdd_green_ap_check_enable_loop K psoc e fuel mode trace = some r ∧
        r.ret = -EINVAL ∧ r.enable_green_ap = e := by
  intro fuel
  induction fuel with
  | zero => intro mode trace _ hf; omega
  | succ fuel ih =>
    intro mode trace hle hf hlow
    unfold hdd_green_ap_check_enable_loop
    have hlt : mode < K.QDF_MAX_NO_OF_MODE := by omega
    rw [if_pos hlt]
    by_cases hap : mode = K.QDF_SAP_MODE ∨ mode = K.QDF_P2P_GO_MODE
    · rw [if_pos hap]
      have hne : mode ≠ m := by
        rintro rfl
        rcases hap with hap | hap
        · exact hsap hap
        · exact hgo hap
      have hwrap : (mode + 1) % 256 = mode + 1 := Nat.mod_eq_of_lt (by omega)
      rw [hwrap]
      exact ih (mode + 1) trace (by omega) (by omega) (fun k hk => hlow k (by omega))
    · rw [if_neg hap]
      have hsap2 : mode ≠ K.QDF_SAP_MODE := fun h => hap (Or.inl h)
      have hgo2 : mode ≠ K.QDF_P2P_GO_MODE := fun h => hap (Or.inr h)
      cases hread : psoc mode with
      | none => exact ⟨_, rfl, rfl, rfl⟩
      | some n =>
        have hne : mode ≠ m := by
          rintro rfl
          rw [hfail] at hread
          cases hread
        have hn0 : n = 0 := hlow mode (Nat.le_refl _) (by omega) hsap2 hgo2 n hread
        subst hn0
        have hwrap : (mode + 1) % 256 = mode + 1 := Nat.mod_eq_of_lt (by omega)
        simp only [ne_eq, not_true_eq_false, if_false, hwrap]
        exact ih (mode + 1) _ (by omega) (by omega) (fun k hk => hlow k (by omega))

/-- C15, as stated, fails: at the driver's enumerators, station mode (0) has two
sessions and the read of the P2P client count (2) fails. The evaluator returns
0 with a verdict of false; it never reaches the failing mode. -/
theorem check_enable_lookup_failure_counterexample :
    busyThenUnreadable 2 = none ∧
      (hdd_green_ap_check_enable qcacld busyThenUnreadable true).map
        (fun c => (c.ret, c.enable_green_ap, c.trace)) =
        some (0, false, [.policy_mgr_mode_specific_num_active_sessions 0]) := by
  decide

/-- C15, amended: if the registry fails to report a count for a non-AP-like
mode m below QDF_MAX_NO_OF_MODE (enum of at most 255 modes) and no
lower-numbered non-AP-like mode reports a non-zero count, then
`hdd_green_ap_check_enable` returns -EINVAL and leaves `*enable_green_ap` as it
found it, for every registry and whichever mode m it is. -/
theorem check_enable_lookup_failure (K : Consts) (psoc : Registry) (e : Bool) (m : Nat)
    (hmax : K.QDF_MAX_NO_OF_MODE ≤ 255) (hm : m < K.QDF_MAX_NO_OF_MODE)
    (hsap : m ≠ K.QDF_SAP_MODE) (hgo : m ≠ K.QDF_P2P_GO_MODE) (hfail : psoc m = none)
    (hlow : ∀ k, k < m → k ≠ K.QDF_SAP_MODE → k ≠ K.QDF_P2P_GO_MODE →
      ∀ n, psoc k = some n → n = 0) :
    ∃ r, hdd_green_ap_check_enable K psoc e = some r ∧ r.ret = -EINVAL ∧
      r.enable_green_ap = e :=
  check_enable_loop_fails K psoc e m hm (by omega) hsap hgo hfail 256 0 [] (Nat.zero_le _)
    (by omega) (fun k _ => hlow k)

/-- C15 amended, at a failing read of the P2P client count (2) with no station
session: -EINVAL, and the verdict variable keeps the value true it came with. -/
theorem check_enable_lookup_failure_witness :
    ∃ r, hdd_green_ap_check_enable qcacld (unreadable 2) true = some r ∧ r.ret = -EINVAL ∧
      r.enable_green_ap = true :=
  check_enable_lookup_failure qcacld (unreadable 2) true 2 (by decide) (by decide) (by decide)
    (by decide) rfl
    (fun k _ _ _ n hn => by
      unfold unreadable at hn
      split at hn
      · cases hn
      · exact (Option.some.inj hn).symm)

/-- C16: SAP START with the feature on while the read of the station count
fails. The evaluator returns -EINVAL (-22); `hdd_green_ap_start_state_mc`
stores it in its uint8_t `ret` and returns 234, issuing no command. -/
theorem start_state_mc_evaluator_failure :
    (hdd_green_ap_check_enable qcacld (unreadable 0) false).map (fun c => c.ret) =
        some (-EINVAL) ∧
      (hdd_green_ap_start_state_mc qcacld (ctxOn (unreadable 0)) 1 true).map
        (fun r => (r.ret, commands r.trace)) = some (234, []) := by
  decide

/-- C17: an engine that reports an error for set_ps_config, start and stop.
A station START next to one SAP session issues DisableGreenAp and returns 0;
a SAP START on an idle radio issues EnableGreenAp and returns 0. -/
theorem start_state_mc_engine_failure :
    (hdd_green_ap_start_state_mc qcacld
        { ctxOn (oneMode 1 1) with pdev := engineFailing } 0 true).map
        (fun r => (r.ret, commands r.trace)) = some (0, DisableGreenAp) ∧
      (hdd_green_ap_start_state_mc qcacld
        { ctxOn idleRegistry with pdev := engineFailing } 1 true).map
        (fun r => (r.ret, commands r.trace)) = some (0, EnableGreenAp) := by
  decide

/-- C18: the registry cannot report the SAP and P2P GO counts. A SAP STOP with
the feature on takes both counts for 0, issues DisableGreenAp and returns 0; a
station START issues nothing and returns 0 as well. -/
theorem start_state_mc_ap_count_unreadable :
    apUnreadable qcacld.QDF_SAP_MODE = none ∧ apUnreadable qcacld.QDF_P2P_GO_MODE = none ∧
      (hdd_green_ap_start_state_mc qcacld (ctxOn apUnreadable) 1 false).map
        (fun r => (r.ret, commands r.trace)) = some (0, DisableGreenAp) ∧
      (hdd_green_ap_start_state_mc qcacld (ctxOn apUnreadable) 0 true).map
        (fun r => (r.ret, commands r.trace)) = some (0, []) := by
  decide

/-- C19: a doze request that is rejected (the attribute parse fails, or the
state attribute is absent, or its value is above QCA_WLAN_DOZED_AP_ENABLE)
makes `__wlan_hdd_enter_sap_low_pwr_mode` return -EINVAL after the parse
alone: `ucfg_green_ap_ll_ps` is not called and the engine is as it was. -/
theorem inner_low_pwr_mode_rejected (K : Consts) (hdd_ctx : hdd_context)
    (wdev : wireless_dev) (data : DozeRequest)
    (hrej : data.nla_parse_ok = false ∨ data.dozed_ap_state = none ∨
      ∃ v, data.dozed_ap_state = some v ∧ v > K.QCA_WLAN_DOZED_AP_ENABLE) :
    (__wlan_hdd_enter_sap_low_pwr_mode K hdd_ctx wdev data).trace =
        [.wlan_cfg80211_nla_parse] ∧
      (∀ state beacon_int, Call.ucfg_green_ap_ll_ps state beacon_int ∉
        (__wlan_hdd_enter_sap_low_pwr_mode K hdd_ctx wdev data).trace) ∧
      (__wlan_hdd_enter_sap_low_pwr_mode K hdd_ctx wdev data).pdev = hdd_ctx.pdev ∧
      (__wlan_hdd_enter_sap_low_pwr_mode K hdd_ctx wdev data).ret = -EINVAL := by
  have key : (__wlan_hdd_enter_sap_low_pwr_mode K hdd_ctx wdev data).trace =
        [.wlan_cfg80211_nla_parse] ∧
      (__wlan_hdd_enter_sap_low_pwr_mode K hdd_ctx wdev data).pdev = hdd_ctx.pdev ∧
      (__wlan_hdd_enter_sap_low_pwr_mode K hdd_ctx wdev data).ret = -EINVAL := by
    unfold __wlan_hdd_enter_sap_low_pwr_mode
    rcases hrej with h | h | ⟨v, h, hv⟩
    · simp [h]
    · cases data.nla_parse_ok <;> simp [h]
    · cases data.nla_parse_ok <;> simp [h, hv]
  refine ⟨key.1, ?_, key.2.1, key.2.2⟩
  intro state beacon_int
  rw [key.1]
  simp

/-- C19 at set_doze(2, 100) with the driver's enumerators. -/
theorem inner_low_pwr_mode_rejected_witness :
    (__wlan_hdd_enter_sap_low_pwr_mode qcacld (ctxOn idleRegistry) ⟨0, 100⟩
        ⟨true, some 2⟩).trace = [.wlan_cfg80211_nla_parse] ∧
      (∀ state beacon_int, Call.ucfg_green_ap_ll_ps state beacon_int ∉
        (__wlan_hdd_enter_sap_low_pwr_mode qcacld (ctxOn idleRegistry) ⟨0, 100⟩
          ⟨true, some 2⟩).trace) ∧
      (__wlan_hdd_enter_sap_low_pwr_mode qcacld (ctxOn idleRegistry) ⟨0, 100⟩
        ⟨true, some 2⟩).pdev = (ctxOn idleRegistry).pdev ∧
      (__wlan_hdd_enter_sap_low_pwr_mode qcacld (ctxOn idleRegistry) ⟨0, 100⟩
        ⟨true, some 2⟩).ret = -EINVAL :=
  inner_low_pwr_mode_rejected qcacld (ctxOn idleRegistry) ⟨0, 100⟩ ⟨true, some 2⟩
    (Or.inr (Or.inr ⟨2, rfl, by decide⟩))

/-! ## After a DisableGreenAp -/

/-- From an engine whose flag is 0, any sequence of session events runs to its
end with no command issued and the engine never changing; each call that gets
past its sanity checks returns 0. -/
theorem run_events_flag_zero (K : Consts) (pdev : Engine) (hz : pdev.ps_enable = 0) :
    ∀ events : List SessionEvent,
      ∃ rs, run_events K pdev events = some rs ∧ rs.map Prod.fst = events ∧
        ∀ er ∈ rs, commands er.2.trace = [] ∧ er.2.pdev = pdev ∧
          (er.1.config = true → er.1.vht_enable2x2.isSome = true → er.2.ret = 0) := by
  intro events
  induction events with
  | nil => exact ⟨[], rfl, rfl, by simp⟩
  | cons e es ih =>
    obtain ⟨r, hr, hcmd, hp, hret⟩ := start_state_mc_flag_zero K
      ⟨e.config, e.vht_enable2x2, e.psoc, pdev⟩ e.mode e.is_session_start hz
    obtain ⟨rs, hrs, hfst, hall⟩ := ih
    refine ⟨(e, r) :: rs, ?_, by simp [hfst], ?_⟩
    · unfold run_events
      rw [hr]
      have hp2 : r.pdev = pdev := hp
      simp only [hp2, hrs]
    · intro er her
      rcases List.mem_cons.1 her with rfl | her
      · exact ⟨hcmd, hp, fun h1 h2 => hret ⟨h1, h2⟩⟩
      · exact hall er her

/-- C20: a call of `hdd_green_ap_start_state_mc` that issues DisableGreenAp on an
engine that accepts the flag write leaves the flag at 0. From that engine,
every sequence of further calls, of any modes, directions and registries, runs
to its end with no command issued at all (so never EnableGreenAp), the engine
staying as the disabling call left it; each of those calls that gets past its
sanity checks returns 0. -/
theorem disable_latches (K : Consts) (hdd_ctx : hdd_context) (mode : Nat)
    (is_session_start : Bool) (r1 : Outcome)
    (h1 : hdd_green_ap_start_state_mc K hdd_ctx mode is_session_start = some r1)
    (hdis : commands r1.trace = DisableGreenAp)
    (hw : hdd_ctx.pdev.set_ps_config_ok = true) :
    r1.pdev.ps_enable = 0 ∧
      ∀ events : List SessionEvent,
        ∃ rs, run_events K r1.pdev events = some rs ∧ rs.map Prod.fst = events ∧
          ∀ er ∈ rs, commands er.2.trace = [] ∧ er.2.pdev = r1.pdev ∧
            (er.1.config = true → er.1.vht_enable2x2.isSome = true → er.2.ret = 0) := by
  have hoff : r1.pdev.ps_enable = 0 := by
    rcases start_state_mc_shapes K hdd_ctx mode is_session_start r1 h1 with
      ⟨hc, -⟩ | ⟨-, hc, -⟩ | ⟨-, -, hp⟩
    · rw [hc] at hdis
      exact absurd hdis (by decide)
    · rw [hc] at hdis
      exact absurd hdis (by decide)
    · rw [hp]
      exact set_ps_config_false_off _ hw
  exact ⟨hoff, run_events_flag_zero K r1.pdev hoff⟩

/-- C20 after a station START next to one SAP session has disabled Green AP. -/
theorem disable_latches_witness :
    (ucfg_green_ap_set_ps_config engineOn false).ps_enable = 0 ∧
      ∀ events : List SessionEvent,
        ∃ rs, run_events qcacld (ucfg_green_ap_set_ps_config engineOn false) events = some rs ∧
          rs.map Prod.fst = events ∧
          ∀ er ∈ rs, commands er.2.trace = [] ∧
            er.2.pdev = ucfg_green_ap_set_ps_config engineOn false ∧
            (er.1.config = true → er.1.vht_enable2x2.isSome = true → er.2.ret = 0) :=
  disable_latches qcacld (ctxOn (oneMode 1 1)) 0 true
    ⟨0,
     [Call.ucfg_mlme_get_vht_enable2x2, Call.ucfg_green_ap_get_ps_config,
      Call.policy_mgr_mode_specific_num_active_sessions 1,
      Call.policy_mgr_mode_specific_num_active_sessions 3] ++ DisableGreenAp,
     ucfg_green_ap_set_ps_config engineOn false⟩
    rfl (by decide) rfl

end GreenAp
